import Mathlib

/-!
Verification of the Windows downlevel synchronization layer
(`library/std/src/sys/windows/locks` and `library/std/src/sys/windows/compat.rs`).

The embedding models the layer from the point of view of one calling thread.
Foreign OS entry points are external collaborators; their semantics are
modelled from the specification's interface descriptions and the source's
own documentation comments, on an explicit state record `S`.  Every
operation returns a `Res`: either a normal return with a new state, a
panic, a self-deadlock, or a suspension on another thread, each carrying
the list of OS calls the operation performed.
-/

namespace WinSync

/-- Capability tier, translated from `MutexKind` in
`sys/windows/locks/mutex/compat.rs`: `SrwLock` (modern), `CriticalSection`
(intermediate), `Legacy`. -/
inductive MutexKind where
  | SrwLock
  | CriticalSection
  | Legacy
deriving DecidableEq, Repr

/-- Ownership of the tier's OS mutex object, as seen by the calling thread.
`me n` means the calling thread holds it with recursion depth `n` (the depth
is only meaningful for the reentrant critical-section and legacy-mutex
primitives; for the slim lock it is always 1). -/
inductive Owner where
  | free
  | me (n : Nat)
  | other
deriving DecidableEq, Repr

/-- Timeout argument of a waiting OS call: `INFINITE` or a millisecond count. -/
inductive Timeout where
  | infinite
  | finite (ms : Nat)
deriving DecidableEq, Repr

/-- Which kernel object a `WaitForSingleObject` call waits on. -/
inductive WaitObj where
  | legacyMutex
  | event
deriving DecidableEq, Repr

/-- One foreign OS call, as recorded in an operation's trace. -/
inductive OsCall where
  | acquireSrwExclusive
  | tryAcquireSrwExclusive
  | releaseSrwExclusive
  | acquireSrwShared
  | tryAcquireSrwShared
  | releaseSrwShared
  | enterCriticalSection
  | tryEnterCriticalSection
  | leaveCriticalSection
  | waitForSingleObject (obj : WaitObj) (t : Timeout)
  | releaseMutexCall
  | sleepConditionVariableSrw (t : Timeout)
  | wakeConditionVariable
  | wakeAllConditionVariable
  | pulseEvent
deriving DecidableEq, Repr

/-- The state a single Mutex/Condvar/RwLock presents to the calling thread:
`owner` is the OS primitive's ownership, `held` is the `Mutex.held`
reentrancy flag, `shared` counts shared (read-mode) holders of the slim
lock, and `waiters` counts the other threads currently waiting on the
paired condition-variable wait object. -/
structure S where
  owner : Owner
  held : Bool
  shared : Nat
  waiters : Nat
deriving DecidableEq, Repr

/-- Outcome of running one operation from the calling thread: a normal
return with result, post-state and OS-call trace; a panic; a self-inflicted
deadlock that no other thread can resolve; or a suspension waiting on
another thread (outside this one-thread model). -/
inductive Res (α : Type) where
  | ok (a : α) (s : S) (tr : List OsCall)
  | panicked (msg : String) (tr : List OsCall)
  | deadlock (tr : List OsCall)
  | blockedOnOther (tr : List OsCall)
deriving DecidableEq, Repr

/-- OS-call trace of an outcome. -/
def Res.trace {α : Type} : Res α → List OsCall
  | .ok _ _ tr => tr
  | .panicked _ tr => tr
  | .deadlock tr => tr
  | .blockedOnOther tr => tr

/-- Whether the outcome is a panic. -/
def Res.isPanicked {α : Type} : Res α → Bool
  | .panicked _ _ => true
  | _ => false

/-- Whether the outcome is a normal return. -/
def Res.isOk {α : Type} : Res α → Bool
  | .ok _ _ _ => true
  | _ => false

/-- Prepend earlier OS calls to an outcome's trace. -/
def Res.withTrace {α : Type} (tr : List OsCall) : Res α → Res α
  | .ok a s tr2 => .ok a s (tr ++ tr2)
  | .panicked msg tr2 => .panicked msg (tr ++ tr2)
  | .deadlock tr2 => .deadlock (tr ++ tr2)
  | .blockedOnOther tr2 => .blockedOnOther (tr ++ tr2)

/-- Sequencing of operations: panics, deadlocks and suspensions abort the
rest of the computation; traces accumulate in order. -/
def Res.bind {α β : Type} : Res α → (α → S → Res β) → Res β
  | .ok a s tr, f => (f a s).withTrace tr
  | .panicked msg tr, _ => .panicked msg tr
  | .deadlock tr, _ => .deadlock tr
  | .blockedOnOther tr, _ => .blockedOnOther tr

/-- Result reported by a kernel wait: `WAIT_OBJECT_0`, `WAIT_TIMEOUT`, or
any other (failure) value. -/
inductive WaitRes where
  | object0
  | timedOut
  | failed
deriving DecidableEq, Repr

/-- Modelled from the spec: `AcquireSRWLockExclusive`, the slim lock's
blocking exclusive acquire.  Non-reentrant: a thread that already holds the
lock deadlocks on a second acquire (the source's module comment records
that the slim lock deadlocks on recursion); a lock held by another thread
or in shared mode suspends the caller. -/
def osAcquireSrwExclusive (s : S) : Res Unit :=
  match s.owner, s.shared with
  | .free, 0 => .ok () { s with owner := .me 1 } [.acquireSrwExclusive]
  | .me _, _ => .deadlock [.acquireSrwExclusive]
  | _, _ => .blockedOnOther [.acquireSrwExclusive]

/-- Modelled from the spec: `TryAcquireSRWLockExclusive`; never blocks,
succeeds exactly when the lock is entirely free. -/
def osTryAcquireSrwExclusive (s : S) : Res Bool :=
  match s.owner, s.shared with
  | .free, 0 => .ok true { s with owner := .me 1 } [.tryAcquireSrwExclusive]
  | _, _ => .ok false s [.tryAcquireSrwExclusive]

/-- Modelled from the spec: `ReleaseSRWLockExclusive`.  Calling it without
holding the lock exclusively is undefined behaviour; the model releases
unconditionally and no theorem exercises the undefined case. -/
def osReleaseSrwExclusive (s : S) : Res Unit :=
  .ok () { s with owner := .free } [.releaseSrwExclusive]

/-- Modelled from the spec: `AcquireSRWLockShared`, the slim lock's
blocking shared acquire. -/
def osAcquireSrwShared (s : S) : Res Unit :=
  match s.owner with
  | .free => .ok () { s with shared := s.shared + 1 } [.acquireSrwShared]
  | .me _ => .deadlock [.acquireSrwShared]
  | .other => .blockedOnOther [.acquireSrwShared]

/-- Modelled from the spec: `TryAcquireSRWLockShared`; never blocks,
succeeds exactly when no thread holds the lock exclusively. -/
def osTryAcquireSrwShared (s : S) : Res Bool :=
  match s.owner with
  | .free => .ok true { s with shared := s.shared + 1 } [.tryAcquireSrwShared]
  | _ => .ok false s [.tryAcquireSrwShared]

/-- Modelled from the spec: `ReleaseSRWLockShared`. -/
def osReleaseSrwShared (s : S) : Res Unit :=
  .ok () { s with shared := s.shared - 1 } [.releaseSrwShared]

/-- Modelled from the spec: `EnterCriticalSection`, a reentrant blocking
acquire — a second acquire by the holding thread succeeds silently,
increasing the recursion depth. -/
def osEnterCriticalSection (s : S) : Res Unit :=
  match s.owner with
  | .free => .ok () { s with owner := .me 1 } [.enterCriticalSection]
  | .me n => .ok () { s with owner := .me (n + 1) } [.enterCriticalSection]
  | .other => .blockedOnOther [.enterCriticalSection]

/-- Modelled from the spec: `TryEnterCriticalSection`; never blocks,
succeeds when the section is free or already held by the calling thread. -/
def osTryEnterCriticalSection (s : S) : Res Bool :=
  match s.owner with
  | .free => .ok true { s with owner := .me 1 } [.tryEnterCriticalSection]
  | .me n => .ok true { s with owner := .me (n + 1) } [.tryEnterCriticalSection]
  | .other => .ok false s [.tryEnterCriticalSection]

/-- Modelled from the spec: `LeaveCriticalSection`, decrementing the
recursion depth.  Leaving a section one does not hold is undefined
behaviour; the model leaves the state unchanged there and no theorem
exercises that case. -/
def osLeaveCriticalSection (s : S) : Res Unit :=
  match s.owner with
  | .me (n + 1) =>
      .ok () { s with owner := if n = 0 then .free else .me n } [.leaveCriticalSection]
  | _ => .ok () s [.leaveCriticalSection]

/-- Modelled from the spec: `WaitForSingleObject` on the legacy kernel
mutex.  The kernel mutex is recursive and owner-tracked: a wait by the
owner succeeds immediately at any recursion depth.  When another thread
owns it, an infinite wait suspends and a finite wait times out in this
one-thread model (the other thread never releases inside the model). -/
def osWaitLegacyMutex (t : Timeout) (s : S) : Res WaitRes :=
  match s.owner with
  | .free => .ok .object0 { s with owner := .me 1 } [.waitForSingleObject .legacyMutex t]
  | .me n => .ok .object0 { s with owner := .me (n + 1) } [.waitForSingleObject .legacyMutex t]
  | .other =>
      match t with
      | .infinite => .blockedOnOther [.waitForSingleObject .legacyMutex .infinite]
      | .finite ms => .ok .timedOut s [.waitForSingleObject .legacyMutex (.finite ms)]

/-- Modelled from the spec: `ReleaseMutex` on the legacy kernel mutex;
returns whether the release succeeded (it fails when the calling thread is
not the owner). -/
def osReleaseLegacyMutex (s : S) : Res Bool :=
  match s.owner with
  | .me (n + 1) =>
      .ok true { s with owner := if n = 0 then .free else .me n } [.releaseMutexCall]
  | _ => .ok false s [.releaseMutexCall]

/-- Modelled from the spec: `WaitForSingleObject` on the manual-reset
event.  Whether the wait is satisfied depends on the other threads'
notifications, so the outcome is supplied by the oracle `r`. -/
def osWaitEvent (r : WaitRes) (t : Timeout) (s : S) : Res WaitRes :=
  .ok r s [.waitForSingleObject .event t]

/-- Modelled from the spec: `PulseEvent` on a manual-reset event releases
all threads currently waiting on it. -/
def osPulseEvent (s : S) : Res Unit :=
  .ok () { s with waiters := 0 } [.pulseEvent]

/-- Modelled from the spec: `WakeConditionVariable` wakes at most one
waiting thread. -/
def osWakeConditionVariable (s : S) : Res Unit :=
  .ok () { s with waiters := s.waiters - 1 } [.wakeConditionVariable]

/-- Modelled from the spec: `WakeAllConditionVariable` wakes every waiting
thread. -/
def osWakeAllConditionVariable (s : S) : Res Unit :=
  .ok () { s with waiters := 0 } [.wakeAllConditionVariable]

/-- Modelled from the spec: `SleepConditionVariableSRW` atomically releases
the slim lock, waits, and reacquires the lock before returning, so the
caller's ownership is unchanged across the call.  It returns nonzero
exactly when the wait was satisfied; the outcome is supplied by the oracle
`r`. -/
def osSleepConditionVariableSrw (r : WaitRes) (t : Timeout) (s : S) : Res Bool :=
  .ok (decide (r = .object0)) s [.sleepConditionVariableSrw t]

end WinSync

namespace WinSync

/-- Translated from `SrwLock::read` in `locks/mutex/srwlock.rs`. -/
def srwRead (s : S) : Res Unit := osAcquireSrwShared s

/-- Translated from `SrwLock::try_read` in `locks/mutex/srwlock.rs`
(nonzero return converted to a Boolean). -/
def srwTryRead (s : S) : Res Bool := osTryAcquireSrwShared s

/-- Translated from `SrwLock::write` in `locks/mutex/srwlock.rs`. -/
def srwWrite (s : S) : Res Unit := osAcquireSrwExclusive s

/-- Translated from `SrwLock::try_write` in `locks/mutex/srwlock.rs`. -/
def srwTryWrite (s : S) : Res Bool := osTryAcquireSrwExclusive s

/-- Translated from `SrwLock::read_unlock` in `locks/mutex/srwlock.rs`. -/
def srwReadUnlock (s : S) : Res Unit := osReleaseSrwShared s

/-- Translated from `SrwLock::write_unlock` in `locks/mutex/srwlock.rs`. -/
def srwWriteUnlock (s : S) : Res Unit := osReleaseSrwExclusive s

/-- Translated from `CriticalSectionMutex::lock` in
`locks/mutex/critical_section_mutex.rs`. -/
def csLock (s : S) : Res Unit := osEnterCriticalSection s

/-- Translated from `CriticalSectionMutex::try_lock` in
`locks/mutex/critical_section_mutex.rs`. -/
def csTryLock (s : S) : Res Bool := osTryEnterCriticalSection s

/-- Translated from `CriticalSectionMutex::unlock` in
`locks/mutex/critical_section_mutex.rs`. -/
def csUnlock (s : S) : Res Unit := osLeaveCriticalSection s

/-- Translated from `LegacyMutex::new` in `locks/mutex/legacy_mutex.rs`:
`CreateMutexA` is an external call whose result (null modelled as `none`)
is supplied as a parameter; a null handle is a panic, never a recoverable
return. -/
def legacyMutexNew (createRes : Option Nat) : Except String Nat :=
  match createRes with
  | none => .error "failed creating mutex"
  | some h => .ok h

/-- Translated from `LegacyMutex::lock` in `locks/mutex/legacy_mutex.rs`:
an infinite wait on the kernel mutex, panicking on any result other than
`WAIT_OBJECT_0`. -/
def legacyLock (s : S) : Res Unit :=
  (osWaitLegacyMutex .infinite s).bind fun r s1 =>
    match r with
    | .object0 => .ok () s1 []
    | _ => .panicked "mutex lock failed" []

/-- Translated from `LegacyMutex::try_lock` in
`locks/mutex/legacy_mutex.rs`: a zero-timeout wait; `WAIT_OBJECT_0` is
success, `WAIT_TIMEOUT` is failure, anything else panics. -/
def legacyTryLock (s : S) : Res Bool :=
  (osWaitLegacyMutex (.finite 0) s).bind fun r s1 =>
    match r with
    | .object0 => .ok true s1 []
    | .timedOut => .ok false s1 []
    | .failed => .panicked "try lock error" []

/-- Translated from `LegacyMutex::unlock` in `locks/mutex/legacy_mutex.rs`:
`ReleaseMutex` with the result unwrapped, so a failed release panics. -/
def legacyUnlock (s : S) : Res Unit :=
  (osReleaseLegacyMutex s).bind fun ok s1 =>
    if ok then .ok () s1 [] else .panicked "ReleaseMutex failed" []

/-- Translated from `Mutex::flag_locked` in `locks/mutex.rs`: returns
false when the held flag was already set, otherwise sets it and returns
true. -/
def flagLocked (s : S) : Bool × S :=
  if s.held then (false, s) else (true, { s with held := true })

/-- Translated from `Mutex::unlock` in `locks/mutex.rs`: under the slim
lock, a plain exclusive release; under the other tiers the held flag is
cleared before releasing the OS primitive. -/
def mutexUnlock (k : MutexKind) (s : S) : Res Unit :=
  match k with
  | .SrwLock => srwWriteUnlock s
  | .CriticalSection => csUnlock { s with held := false }
  | .Legacy => legacyUnlock { s with held := false }

/-- Translated from `Mutex::lock` in `locks/mutex.rs`: the slim-lock tier
delegates directly to the exclusive acquire; the other tiers acquire the
OS primitive, then check the held flag and, when it was already set,
unlock and panic with the recursive-locking message. -/
def mutexLock (k : MutexKind) (s : S) : Res Unit :=
  match k with
  | .SrwLock => srwWrite s
  | .CriticalSection =>
      (csLock s).bind fun _ s1 =>
        let p := flagLocked s1
        if p.1 then .ok () p.2 []
        else
          (mutexUnlock .CriticalSection p.2).bind fun _ _ =>
            .panicked "cannot recursively lock a mutex" []
  | .Legacy =>
      (legacyLock s).bind fun _ s1 =>
        let p := flagLocked s1
        if p.1 then .ok () p.2 []
        else
          (mutexUnlock .Legacy p.2).bind fun _ _ =>
            .panicked "cannot recursively lock a mutex" []

/-- Translated from `Mutex::try_lock` in `locks/mutex.rs`: the slim-lock
tier delegates to the try-acquire; the other tiers try the OS primitive
and, when it is obtained but the held flag was already set, unlock again
and report failure. -/
def mutexTryLock (k : MutexKind) (s : S) : Res Bool :=
  match k with
  | .SrwLock => srwTryWrite s
  | .CriticalSection =>
      (csTryLock s).bind fun b s1 =>
        if !b then .ok false s1 []
        else
          let p := flagLocked s1
          if p.1 then .ok true p.2 []
          else (mutexUnlock .CriticalSection p.2).bind fun _ s2 => .ok false s2 []
  | .Legacy =>
      (legacyTryLock s).bind fun b s1 =>
        if !b then .ok false s1 []
        else
          let p := flagLocked s1
          if p.1 then .ok true p.2 []
          else (mutexUnlock .Legacy p.2).bind fun _ s2 => .ok false s2 []

/-- Modelled from the spec: the duration-to-native-timeout translation
(`dur2timeout`, defined outside the extracted sources), which converts an
abstract duration — here already a millisecond count — into the host's
timeout unit, clamping to the representable maximum below `INFINITE`. -/
def dur2timeout (ms : Nat) : Nat := min ms 0xFFFFFFFE

/-- Translated from `Condvar::wait` in `locks/condvar.rs`.  The slim-lock
tier is one combined sleep call (its debug assertion is a no-op in
release builds).  The other tiers unlock the mutex, wait on the
manual-reset event with an infinite timeout — panicking on any result
other than `WAIT_OBJECT_0` — and lock the mutex again.  `r` is the oracle
for the wait's outcome. -/
def condvarWait (k : MutexKind) (r : WaitRes) (s : S) : Res Unit :=
  match k with
  | .SrwLock =>
      (osSleepConditionVariableSrw r .infinite s).bind fun _ s1 => .ok () s1 []
  | .CriticalSection | .Legacy =>
      (mutexUnlock k s).bind fun _ s1 =>
        (osWaitEvent r .infinite s1).bind fun w s2 =>
          match w with
          | .object0 => (mutexLock k s2).bind fun _ s3 => .ok () s3 []
          | _ => .panicked "event wait failed" []

/-- Translated from `Condvar::wait_timeout` in `locks/condvar.rs`.  The
slim-lock tier is one combined sleep call returning whether it was woken.
The other tiers unlock the mutex, wait on the event with the translated
timeout (`WAIT_OBJECT_0` is a wake, `WAIT_TIMEOUT` a timeout, anything
else panics), then lock the mutex again and return the wait's verdict. -/
def condvarWaitTimeout (k : MutexKind) (r : WaitRes) (durMs : Nat) (s : S) : Res Bool :=
  match k with
  | .SrwLock =>
      (osSleepConditionVariableSrw r (.finite (dur2timeout durMs)) s).bind fun b s1 =>
        .ok b s1 []
  | .CriticalSection | .Legacy =>
      (mutexUnlock k s).bind fun _ s1 =>
        (osWaitEvent r (.finite (dur2timeout durMs)) s1).bind fun w s2 =>
          match w with
          | .object0 => (mutexLock k s2).bind fun _ s3 => .ok true s3 []
          | .timedOut => (mutexLock k s2).bind fun _ s3 => .ok false s3 []
          | .failed => .panicked "event wait failed" []

/-- Translated from `Condvar::notify_one` in `locks/condvar.rs`: the
slim-lock tier wakes one waiter of the native condition variable; the
other tiers pulse the manual-reset event. -/
def condvarNotifyOne (k : MutexKind) (s : S) : Res Unit :=
  match k with
  | .SrwLock => osWakeConditionVariable s
  | .CriticalSection | .Legacy => osPulseEvent s

/-- Translated from `Condvar::notify_all` in `locks/condvar.rs`: the
slim-lock tier wakes all waiters of the native condition variable; the
other tiers pulse the manual-reset event. -/
def condvarNotifyAll (k : MutexKind) (s : S) : Res Unit :=
  match k with
  | .SrwLock => osWakeAllConditionVariable s
  | .CriticalSection | .Legacy => osPulseEvent s

/-- Internal representation of a condition variable: a native condition
object, or a manual-reset event handle. -/
inductive CondvarRepr where
  | srw
  | event (handle : Nat)
deriving DecidableEq, Repr

/-- Translated from `LazyInit::init for CondvarImpl` in
`locks/condvar.rs`: the slim-lock tier constructs the native condition
object; the other tiers call `CreateEventA` (result supplied as a
parameter, null modelled as `none`) and panic on a null handle. -/
def condvarImplInit (k : MutexKind) (createRes : Option Nat) : Except String CondvarRepr :=
  match k with
  | .SrwLock => .ok .srw
  | .CriticalSection | .Legacy =>
      match createRes with
      | none => .error "failed creating event"
      | some h => .ok (.event h)

/-- Translated from `RwLock::read` in `locks/rwlock.rs`. -/
def rwRead (k : MutexKind) (s : S) : Res Unit :=
  match k with
  | .SrwLock => srwRead s
  | .CriticalSection | .Legacy => mutexLock k s

/-- Translated from `RwLock::try_read` in `locks/rwlock.rs`. -/
def rwTryRead (k : MutexKind) (s : S) : Res Bool :=
  match k with
  | .SrwLock => srwTryRead s
  | .CriticalSection | .Legacy => mutexTryLock k s

/-- Translated from `RwLock::write` in `locks/rwlock.rs`. -/
def rwWrite (k : MutexKind) (s : S) : Res Unit :=
  match k with
  | .SrwLock => srwWrite s
  | .CriticalSection | .Legacy => mutexLock k s

/-- Translated from `RwLock::try_write` in `locks/rwlock.rs`. -/
def rwTryWrite (k : MutexKind) (s : S) : Res Bool :=
  match k with
  | .SrwLock => srwTryWrite s
  | .CriticalSection | .Legacy => mutexTryLock k s

/-- Translated from `RwLock::read_unlock` in `locks/rwlock.rs`. -/
def rwReadUnlock (k : MutexKind) (s : S) : Res Unit :=
  match k with
  | .SrwLock => srwReadUnlock s
  | .CriticalSection | .Legacy => mutexUnlock k s

/-- Translated from `RwLock::write_unlock` in `locks/rwlock.rs`. -/
def rwWriteUnlock (k : MutexKind) (s : S) : Res Unit :=
  match k with
  | .SrwLock => srwWriteUnlock s
  | .CriticalSection | .Legacy => mutexUnlock k s

/-- Translated from the static initializer of `MUTEX_KIND` in
`locks/mutex/compat.rs`: the process-wide tier cell starts as the
slim-lock tier. -/
def MUTEX_KIND_initial : MutexKind := .SrwLock

/-- Translated from `init` in `locks/mutex/compat.rs`: the capability
probe, parametrized by whether `TryAcquireSRWLockExclusive` and
`TryEnterCriticalSection` resolved. -/
def compatInit (srwAvail tryEnterCsAvail : Bool) : MutexKind :=
  if srwAvail then .SrwLock
  else if tryEnterCsAvail then .CriticalSection
  else .Legacy

/-- Rank of a tier, newest first: the slim lock is the newest tier. -/
def tierRank : MutexKind → Nat
  | .SrwLock => 0
  | .CriticalSection => 1
  | .Legacy => 2

/-- Whether a tier's probe succeeds, given the availability of the two
probed entry points; the legacy tier needs no probe. -/
def probeSucceeds (srwAvail tryEnterCsAvail : Bool) : MutexKind → Bool
  | .SrwLock => srwAvail
  | .CriticalSection => tryEnterCsAvail
  | .Legacy => true

/-- The tiers, newest first. -/
def tiersNewestFirst : List MutexKind := [.SrwLock, .CriticalSection, .Legacy]

/-- Tier selection as the specification words it: the newest tier whose
probe succeeds. -/
def newestSupportedTier (srwAvail tryEnterCsAvail : Bool) : MutexKind :=
  (tiersNewestFirst.find? (probeSucceeds srwAvail tryEnterCsAvail)).getD .Legacy

/-- Memo-cell state of a hard-fallback lazy binding (`PTR` in
`compat_fn_with_fallback`, `sys/windows/compat.rs`): the loader
trampoline, the resolved real entry point, or the fallback. -/
inductive FnPtr where
  | loader
  | realFn
  | fallbackFn
deriving DecidableEq, Repr

/-- Translated from `compat_fn_with_fallback` in `sys/windows/compat.rs`:
one call through the binding.  Calling the loader trampoline resolves the
symbol (`resolves` says whether resolution succeeds, a pure property of
the OS image), stores the resolved address or the fallback into the memo
cell, and immediately invokes the stored implementation; later calls
invoke whatever the cell holds. -/
def bindingCall {α β : Type} (realImpl fallbackImpl : α → β) (resolves : Bool)
    (st : FnPtr) (x : α) : β × FnPtr :=
  match st with
  | .loader =>
      if resolves then (realImpl x, .realFn) else (fallbackImpl x, .fallbackFn)
  | .realFn => (realImpl x, .realFn)
  | .fallbackFn => (fallbackImpl x, .fallbackFn)

/-- A sequence of calls through a hard-fallback binding, threading the
memo cell. -/
def bindingCalls {α β : Type} (realImpl fallbackImpl : α → β) (resolves : Bool) :
    List α → FnPtr → List β × FnPtr
  | [], st => ([], st)
  | x :: xs, st =>
      let p := bindingCall realImpl fallbackImpl resolves st x
      let q := bindingCalls realImpl fallbackImpl resolves xs p.2
      (p.1 :: q.1, q.2)

end WinSync

namespace WinSync

/-- Whether an OS call can suspend the calling thread. -/
def OsCall.blocking : OsCall → Bool
  | .acquireSrwExclusive | .acquireSrwShared | .enterCriticalSection => true
  | .waitForSingleObject _ .infinite => true
  | .waitForSingleObject _ (.finite ms) => decide (0 < ms)
  | .sleepConditionVariableSrw _ => true
  | _ => false

/-- Whether an OS call belongs to the modern slim-lock / native
condition-variable family, as opposed to the degraded critical-section,
legacy-mutex and event paths. -/
def OsCall.usesSrwPath : OsCall → Bool
  | .acquireSrwExclusive | .tryAcquireSrwExclusive | .releaseSrwExclusive => true
  | .acquireSrwShared | .tryAcquireSrwShared | .releaseSrwShared => true
  | .sleepConditionVariableSrw _ => true
  | .wakeConditionVariable | .wakeAllConditionVariable => true
  | _ => false

theorem osAcquireSrwExclusive_trace (s : S) :
    (osAcquireSrwExclusive s).trace = [.acquireSrwExclusive] := by
  rcases s with ⟨o, h, sh, w⟩
  cases o <;> cases sh <;> rfl

theorem osTryAcquireSrwExclusive_trace (s : S) :
    (osTryAcquireSrwExclusive s).trace = [.tryAcquireSrwExclusive] := by
  rcases s with ⟨o, h, sh, w⟩
  cases o <;> cases sh <;> rfl

theorem osAcquireSrwShared_trace (s : S) :
    (osAcquireSrwShared s).trace = [.acquireSrwShared] := by
  rcases s with ⟨o, h, sh, w⟩
  cases o <;> rfl

theorem osTryAcquireSrwShared_trace (s : S) :
    (osTryAcquireSrwShared s).trace = [.tryAcquireSrwShared] := by
  rcases s with ⟨o, h, sh, w⟩
  cases o <;> rfl

theorem bindingCalls_stable_real {α β : Type} (realImpl fallbackImpl : α → β)
    (resolves : Bool) (xs : List α) :
    bindingCalls realImpl fallbackImpl resolves xs .realFn = (xs.map realImpl, .realFn) := by
  induction xs with
  | nil => rfl
  | cons x xs ih => simp [bindingCalls, bindingCall, ih]

theorem bindingCalls_stable_fallback {α β : Type} (realImpl fallbackImpl : α → β)
    (resolves : Bool) (xs : List α) :
    bindingCalls realImpl fallbackImpl resolves xs .fallbackFn =
      (xs.map fallbackImpl, .fallbackFn) := by
  induction xs with
  | nil => rfl
  | cons x xs ih => simp [bindingCalls, bindingCall, ih]

/-- C2: the capability probe selects the tier by exactly the spec's
algorithm — slim-lock try-acquire available gives the modern tier, else
try-enter-critical-section available gives the intermediate tier, else the
legacy tier — which is the newest tier whose probe succeeds. -/
theorem compatInit_selects_newest_supported_tier :
    ∀ srwAvail tryEnterCsAvail : Bool,
      compatInit srwAvail tryEnterCsAvail = newestSupportedTier srwAvail tryEnterCsAvail ∧
      probeSucceeds srwAvail tryEnterCsAvail (compatInit srwAvail tryEnterCsAvail) = true ∧
      ∀ k, probeSucceeds srwAvail tryEnterCsAvail k = true →
        tierRank (compatInit srwAvail tryEnterCsAvail) ≤ tierRank k := by
  intro srw cs
  refine ⟨?_, ?_, ?_⟩
  · cases srw <;> cases cs <;> rfl
  · cases srw <;> cases cs <;> rfl
  · intro k hk
    cases srw <;> cases cs <;> cases k <;>
      simp_all [probeSucceeds, compatInit, tierRank]

/-- C2 witness: with the slim-lock probe failing and the critical-section
probe succeeding, the selected intermediate tier is at least as new as the
legacy tier, whose probe always succeeds. -/
theorem compatInit_selects_newest_supported_tier_witness :
    tierRank (compatInit false true) ≤ tierRank .Legacy :=
  (compatInit_selects_newest_supported_tier false true).2.2 .Legacy (by decide)

/-- C5: for a hard-fallback lazy binding, if symbol resolution fails the
fallback is permanently installed in the memo cell and every call —
including the one that triggered resolution — returns exactly the fallback
body's result; if resolution succeeds the resolved entry point is
installed and every call invokes it. -/
theorem compat_fn_with_fallback_memo (α β : Type) (realImpl fallbackImpl : α → β)
    (xs : List α) :
    (bindingCalls realImpl fallbackImpl false xs .loader).1 = xs.map fallbackImpl ∧
    (bindingCalls realImpl fallbackImpl true xs .loader).1 = xs.map realImpl ∧
    (xs ≠ [] →
      (bindingCalls realImpl fallbackImpl false xs .loader).2 = .fallbackFn ∧
      (bindingCalls realImpl fallbackImpl true xs .loader).2 = .realFn) := by
  cases xs with
  | nil => simp [bindingCalls]
  | cons x xs =>
      refine ⟨?_, ?_, fun _ => ⟨?_, ?_⟩⟩ <;>
        simp [bindingCalls, bindingCall,
          bindingCalls_stable_real, bindingCalls_stable_fallback]

/-- C5 witness: a two-call sequence from the unresolved state ends with
the fallback installed when resolution fails, and with the real entry
point installed when it succeeds. -/
theorem compat_fn_with_fallback_memo_witness :
    (bindingCalls (fun n => n + 1) (fun _ => 0) false [5, 6] .loader).2 = FnPtr.fallbackFn ∧
    (bindingCalls (fun n => n + 1) (fun _ => 0) true [5, 6] .loader).2 = FnPtr.realFn :=
  (compat_fn_with_fallback_memo Nat Nat (fun n => n + 1) (fun _ => 0) [5, 6]).2.2
    (by decide)

/-- C7: under the intermediate and legacy tiers every read/write-lock
operation delegates to the inner Mutex's exclusive path — read equals
write in the embedding on those tiers. -/
theorem rwlock_degraded_delegates_to_mutex :
    (∀ s, rwRead .CriticalSection s = mutexLock .CriticalSection s) ∧
    (∀ s, rwRead .Legacy s = mutexLock .Legacy s) ∧
    (∀ s, rwTryRead .CriticalSection s = mutexTryLock .CriticalSection s) ∧
    (∀ s, rwTryRead .Legacy s = mutexTryLock .Legacy s) ∧
    (∀ s, rwWrite .CriticalSection s = mutexLock .CriticalSection s) ∧
    (∀ s, rwWrite .Legacy s = mutexLock .Legacy s) ∧
    (∀ s, rwTryWrite .CriticalSection s = mutexTryLock .CriticalSection s) ∧
    (∀ s, rwTryWrite .Legacy s = mutexTryLock .Legacy s) ∧
    (∀ s, rwReadUnlock .CriticalSection s = mutexUnlock .CriticalSection s) ∧
    (∀ s, rwReadUnlock .Legacy s = mutexUnlock .Legacy s) ∧
    (∀ s, rwWriteUnlock .CriticalSection s = mutexUnlock .CriticalSection s) ∧
    (∀ s, rwWriteUnlock .Legacy s = mutexUnlock .Legacy s) ∧
    (∀ s, rwRead .CriticalSection s = rwWrite .CriticalSection s) ∧
    (∀ s, rwRead .Legacy s = rwWrite .Legacy s) :=
  ⟨fun _ => rfl, fun _ => rfl, fun _ => rfl, fun _ => rfl, fun _ => rfl,
    fun _ => rfl, fun _ => rfl, fun _ => rfl, fun _ => rfl, fun _ => rfl,
    fun _ => rfl, fun _ => rfl, fun _ => rfl, fun _ => rfl⟩

/-- C8: failing to create a kernel object is fatal at construction time:
the legacy mutex constructor panics on a null handle from `CreateMutexA`,
and the condition variable's lazy initializer panics on a null handle from
`CreateEventA` under the intermediate and legacy tiers; successful
creation returns the object. -/
theorem kernel_object_creation_failure_is_fatal :
    legacyMutexNew none = .error "failed creating mutex" ∧
    (∀ h, legacyMutexNew (some h) = .ok h) ∧
    condvarImplInit .CriticalSection none = .error "failed creating event" ∧
    condvarImplInit .Legacy none = .error "failed creating event" ∧
    (∀ h, condvarImplInit .CriticalSection (some h) = .ok (.event h)) ∧
    (∀ h, condvarImplInit .Legacy (some h) = .ok (.event h)) :=
  ⟨rfl, fun _ => rfl, rfl, rfl, fun _ => rfl, fun _ => rfl⟩

end WinSync

namespace WinSync

/-- C1 counterexample: on the modern slim-lock tier, a second `lock()` by
the thread that already holds the Mutex (exclusive owner, held flag unused
on this tier) deadlocks — it does not panic or abort, contradicting the
claim that recursive locking terminates the process/thread on every
tier. -/
theorem recursive_lock_modern_counterexample :
    mutexLock .SrwLock { owner := .me 1, held := false, shared := 0, waiters := 0 } =
      .deadlock [.acquireSrwExclusive] ∧
    (mutexLock .SrwLock
        { owner := .me 1, held := false, shared := 0, waiters := 0 }).isPanicked = false := by
  decide

/-- C1 (amended): a second `lock()` by the thread that already holds the
Mutex panics under the intermediate and legacy tiers; under the modern
tier it deadlocks rather than panicking; on no tier does it return
successfully. -/
theorem recursive_lock_uniformly_fatal (s : S) (n : Nat) (ho : s.owner = .me n) :
    mutexLock .SrwLock s = .deadlock [.acquireSrwExclusive] ∧
    (s.held = true →
      mutexLock .CriticalSection s =
        .panicked "cannot recursively lock a mutex"
          [.enterCriticalSection, .leaveCriticalSection] ∧
      mutexLock .Legacy s =
        .panicked "cannot recursively lock a mutex"
          [.waitForSingleObject .legacyMutex .infinite, .releaseMutexCall] ∧
      ∀ k, (mutexLock k s).isOk = false) := by
  rcases s with ⟨o, h, sh, w⟩
  cases ho
  refine ⟨rfl, fun hh => ?_⟩
  cases hh
  refine ⟨?_, ?_, ?_⟩
  · simp [mutexLock, csLock, osEnterCriticalSection, Res.bind, Res.withTrace, flagLocked,
      mutexUnlock, csUnlock, osLeaveCriticalSection]
  · simp [mutexLock, legacyLock, osWaitLegacyMutex, Res.bind, Res.withTrace, flagLocked,
      mutexUnlock, legacyUnlock, osReleaseLegacyMutex]
  · intro k
    cases k <;>
      simp [mutexLock, srwWrite, osAcquireSrwExclusive, csLock, osEnterCriticalSection,
        legacyLock, osWaitLegacyMutex, Res.bind, Res.withTrace, flagLocked, mutexUnlock,
        csUnlock, osLeaveCriticalSection, legacyUnlock, osReleaseLegacyMutex, Res.isOk]

/-- C1 witness: at a concrete held state, the recursive lock deadlocks on
the modern tier and panics on the other two tiers. -/
theorem recursive_lock_uniformly_fatal_witness :
    mutexLock .SrwLock { owner := .me 1, held := true, shared := 0, waiters := 0 } =
      .deadlock [.acquireSrwExclusive] ∧
    mutexLock .CriticalSection { owner := .me 1, held := true, shared := 0, waiters := 0 } =
      .panicked "cannot recursively lock a mutex"
        [.enterCriticalSection, .leaveCriticalSection] ∧
    mutexLock .Legacy { owner := .me 1, held := true, shared := 0, waiters := 0 } =
      .panicked "cannot recursively lock a mutex"
        [.waitForSingleObject .legacyMutex .infinite, .releaseMutexCall] ∧
    ∀ k, (mutexLock k { owner := .me 1, held := true, shared := 0, waiters := 0 }).isOk = false := by
  have h := recursive_lock_uniformly_fatal
    { owner := .me 1, held := true, shared := 0, waiters := 0 } 1 rfl
  exact ⟨h.1, (h.2 rfl).1, (h.2 rfl).2.1, (h.2 rfl).2.2⟩

/-- C3: `try_lock()` performs no blocking OS call on any tier; on an
unheld Mutex it returns true and leaves the Mutex locked; and under the
intermediate and legacy tiers, when the OS primitive is obtained but the
held flag was already set, the just-acquired OS lock is released and false
is returned. -/
theorem mutex_try_lock_spec :
    (∀ k s, ((mutexTryLock k s).trace.all fun c => !c.blocking) = true) ∧
    (∀ k s, s.owner = .free → s.held = false → s.shared = 0 →
      ∃ s' tr, mutexTryLock k s = .ok true s' tr ∧ s'.owner = .me 1) ∧
    (∀ s, s.held = true → (s.owner = .free ∨ ∃ n, s.owner = .me (n + 1)) →
      ∀ k, k = .CriticalSection ∨ k = .Legacy →
        ∃ s' tr, mutexTryLock k s = .ok false s' tr ∧ s'.owner = s.owner) := by
  refine ⟨?_, ?_, ?_⟩
  · intro k s
    rcases s with ⟨o, h, sh, w⟩
    cases k <;> cases o <;> cases h <;> cases sh <;> rfl
  · intro k s ho hh hs
    rcases s with ⟨o, h, sh, w⟩
    cases ho; cases hh; cases hs
    cases k
    · exact ⟨_, _, rfl, rfl⟩
    · exact ⟨_, _, rfl, rfl⟩
    · exact ⟨_, _, rfl, rfl⟩
  · intro s hh ho k hk
    rcases s with ⟨o, h, sh, w⟩
    cases hh
    rcases hk with rfl | rfl
    · rcases ho with rfl | ⟨n, rfl⟩
      · exact ⟨_, _, rfl, rfl⟩
      · refine ⟨_, _, rfl, ?_⟩
        simp [mutexTryLock, csTryLock, osTryEnterCriticalSection, Res.bind, Res.withTrace,
          flagLocked, mutexUnlock, csUnlock, osLeaveCriticalSection]
    · rcases ho with rfl | ⟨n, rfl⟩
      · exact ⟨_, _, rfl, rfl⟩
      · refine ⟨_, _, rfl, ?_⟩
        simp [mutexTryLock, legacyTryLock, osWaitLegacyMutex, Res.bind, Res.withTrace,
          flagLocked, mutexUnlock, legacyUnlock, osReleaseLegacyMutex]

/-- C3 witness: on a concrete unheld state the try-lock succeeds and locks
the Mutex, and on a concrete recursively-entered legacy state it releases
the just-acquired OS lock and reports failure. -/
theorem mutex_try_lock_spec_witness :
    (∃ s' tr, mutexTryLock .SrwLock { owner := .free, held := false, shared := 0, waiters := 0 } =
        .ok true s' tr ∧ s'.owner = .me 1) ∧
    (∃ s' tr, mutexTryLock .Legacy { owner := .me 1, held := true, shared := 0, waiters := 0 } =
        .ok false s' tr ∧ s'.owner = .me 1) :=
  ⟨mutex_try_lock_spec.2.1 .SrwLock
      { owner := .free, held := false, shared := 0, waiters := 0 } rfl rfl rfl,
    mutex_try_lock_spec.2.2
      { owner := .me 1, held := true, shared := 0, waiters := 0 } rfl
      (Or.inr ⟨0, rfl⟩) .Legacy (Or.inr rfl)⟩

/-- C4: under the intermediate and legacy tiers `Condvar::wait` performs
exactly the sequence unlock-the-mutex, infinite wait on the manual-reset
event, lock-the-mutex-again, and every normal return leaves the mutex held
by the calling thread; a failed event wait panics rather than
returning. -/
theorem condvar_wait_degraded_sequence (s : S) (r : WaitRes)
    (ho : s.owner = .me 1) (hh : s.held = true) :
    (r = .object0 →
      (∃ s', condvarWait .CriticalSection r s =
          .ok () s'
            [.leaveCriticalSection, .waitForSingleObject .event .infinite,
              .enterCriticalSection] ∧
          s'.owner = .me 1 ∧ s'.held = true) ∧
      (∃ s', condvarWait .Legacy r s =
          .ok () s'
            [.releaseMutexCall, .waitForSingleObject .event .infinite,
              .waitForSingleObject .legacyMutex .infinite] ∧
          s'.owner = .me 1 ∧ s'.held = true)) ∧
    (r ≠ .object0 →
      (condvarWait .CriticalSection r s).isPanicked = true ∧
      (condvarWait .Legacy r s).isPanicked = true) := by
  rcases s with ⟨o, h, sh, w⟩
  cases ho; cases hh
  constructor
  · rintro rfl
    exact ⟨⟨_, rfl, rfl, rfl⟩, ⟨_, rfl, rfl, rfl⟩⟩
  · intro hr
    cases r
    · exact absurd rfl hr
    · exact ⟨rfl, rfl⟩
    · exact ⟨rfl, rfl⟩

/-- C4 witness: at a concrete held state with a satisfied event wait, both
degraded tiers run the unlock, wait, relock sequence and return holding
the mutex. -/
theorem condvar_wait_degraded_sequence_witness :
    (∃ s', condvarWait .CriticalSection .object0
        { owner := .me 1, held := true, shared := 0, waiters := 0 } =
        .ok () s'
          [.leaveCriticalSection, .waitForSingleObject .event .infinite,
            .enterCriticalSection] ∧
        s'.owner = .me 1 ∧ s'.held = true) ∧
    (∃ s', condvarWait .Legacy .object0
        { owner := .me 1, held := true, shared := 0, waiters := 0 } =
        .ok () s'
          [.releaseMutexCall, .waitForSingleObject .event .infinite,
            .waitForSingleObject .legacyMutex .infinite] ∧
        s'.owner = .me 1 ∧ s'.held = true) :=
  (condvar_wait_degraded_sequence
      { owner := .me 1, held := true, shared := 0, waiters := 0 } .object0 rfl rfl).1 rfl

end WinSync

namespace WinSync

/-- C6: under the intermediate and legacy tiers `notify_one` and
`notify_all` are the identical operation — one pulse of the manual-reset
event, which wakes every current waiter (waiter count drops to zero, not
by one) — while under the modern tier they call the distinct wake-one and
wake-all entry points. -/
theorem notify_degraded_pulse_equivalence :
    (∀ s, condvarNotifyOne .CriticalSection s = condvarNotifyAll .CriticalSection s) ∧
    (∀ s, condvarNotifyOne .Legacy s = condvarNotifyAll .Legacy s) ∧
    (∀ s, condvarNotifyOne .CriticalSection s = .ok () { s with waiters := 0 } [.pulseEvent]) ∧
    (∀ s, condvarNotifyOne .Legacy s = .ok () { s with waiters := 0 } [.pulseEvent]) ∧
    (∀ s, condvarNotifyOne .SrwLock s =
      .ok () { s with waiters := s.waiters - 1 } [.wakeConditionVariable]) ∧
    (∀ s, condvarNotifyAll .SrwLock s =
      .ok () { s with waiters := 0 } [.wakeAllConditionVariable]) ∧
    (condvarNotifyOne .SrwLock { owner := .free, held := false, shared := 0, waiters := 2 }).trace ≠
      (condvarNotifyAll .SrwLock
        { owner := .free, held := false, shared := 0, waiters := 2 }).trace :=
  ⟨fun _ => rfl, fun _ => rfl, fun _ => rfl, fun _ => rfl, fun _ => rfl, fun _ => rfl,
    by decide⟩

/-- C9: the process-wide tier cell starts as the slim-lock tier, so before
the startup probe runs every Mutex, Condvar and RwLock operation performs
only modern-path OS calls (no critical-section, legacy-mutex or event
call), and the condition variable's initializer builds the native variant
without creating a kernel object. -/
theorem mutex_kind_initial_modern_path :
    MUTEX_KIND_initial = .SrwLock ∧
    ∀ (s : S) (r : WaitRes) (d : Nat) (res : Option Nat),
      ((mutexLock MUTEX_KIND_initial s).trace.all OsCall.usesSrwPath = true) ∧
      ((mutexTryLock MUTEX_KIND_initial s).trace.all OsCall.usesSrwPath = true) ∧
      ((mutexUnlock MUTEX_KIND_initial s).trace.all OsCall.usesSrwPath = true) ∧
      ((condvarWait MUTEX_KIND_initial r s).trace.all OsCall.usesSrwPath = true) ∧
      ((condvarWaitTimeout MUTEX_KIND_initial r d s).trace.all OsCall.usesSrwPath = true) ∧
      ((condvarNotifyOne MUTEX_KIND_initial s).trace.all OsCall.usesSrwPath = true) ∧
      ((condvarNotifyAll MUTEX_KIND_initial s).trace.all OsCall.usesSrwPath = true) ∧
      ((rwRead MUTEX_KIND_initial s).trace.all OsCall.usesSrwPath = true) ∧
      ((rwTryRead MUTEX_KIND_initial s).trace.all OsCall.usesSrwPath = true) ∧
      ((rwWrite MUTEX_KIND_initial s).trace.all OsCall.usesSrwPath = true) ∧
      ((rwTryWrite MUTEX_KIND_initial s).trace.all OsCall.usesSrwPath = true) ∧
      ((rwReadUnlock MUTEX_KIND_initial s).trace.all OsCall.usesSrwPath = true) ∧
      ((rwWriteUnlock MUTEX_KIND_initial s).trace.all OsCall.usesSrwPath = true) ∧
      condvarImplInit MUTEX_KIND_initial res = .ok .srw := by
  refine ⟨rfl, fun s r d res => ?_⟩
  rcases s with ⟨o, h, sh, w⟩
  cases o <;> cases sh <;>
    exact ⟨rfl, rfl, rfl, rfl, rfl, rfl, rfl, rfl, rfl, rfl, rfl, rfl, rfl, rfl⟩

/-- C10: under the intermediate and legacy tiers `wait_timeout` reacquires
the mutex before returning on both the signaled (true) and timed-out
(false) outcomes, so the caller holds the mutex on every non-panicking
return; a failed event wait panics. -/
theorem condvar_wait_timeout_degraded_reacquires (s : S) (d : Nat)
    (ho : s.owner = .me 1) (hh : s.held = true) :
    (∃ s', condvarWaitTimeout .CriticalSection .object0 d s =
        .ok true s'
          [.leaveCriticalSection, .waitForSingleObject .event (.finite (dur2timeout d)),
            .enterCriticalSection] ∧
        s'.owner = .me 1 ∧ s'.held = true) ∧
    (∃ s', condvarWaitTimeout .CriticalSection .timedOut d s =
        .ok false s'
          [.leaveCriticalSection, .waitForSingleObject .event (.finite (dur2timeout d)),
            .enterCriticalSection] ∧
        s'.owner = .me 1 ∧ s'.held = true) ∧
    (∃ s', condvarWaitTimeout .Legacy .object0 d s =
        .ok true s'
          [.releaseMutexCall, .waitForSingleObject .event (.finite (dur2timeout d)),
            .waitForSingleObject .legacyMutex .infinite] ∧
        s'.owner = .me 1 ∧ s'.held = true) ∧
    (∃ s', condvarWaitTimeout .Legacy .timedOut d s =
        .ok false s'
          [.releaseMutexCall, .waitForSingleObject .event (.finite (dur2timeout d)),
            .waitForSingleObject .legacyMutex .infinite] ∧
        s'.owner = .me 1 ∧ s'.held = true) ∧
    (condvarWaitTimeout .CriticalSection .failed d s).isPanicked = true ∧
    (condvarWaitTimeout .Legacy .failed d s).isPanicked = true := by
  rcases s with ⟨o, h, sh, w⟩
  cases ho; cases hh
  exact ⟨⟨_, rfl, rfl, rfl⟩, ⟨_, rfl, rfl, rfl⟩, ⟨_, rfl, rfl, rfl⟩, ⟨_, rfl, rfl, rfl⟩,
    rfl, rfl⟩

/-- C10 witness: at a concrete held state and a 100ms timeout, both
degraded tiers return holding the mutex on the signaled and the timed-out
outcome. -/
theorem condvar_wait_timeout_degraded_reacquires_witness :
    (∃ s', condvarWaitTimeout .CriticalSection .object0 100
        { owner := .me 1, held := true, shared := 0, waiters := 0 } =
        .ok true s'
          [.leaveCriticalSection, .waitForSingleObject .event (.finite (dur2timeout 100)),
            .enterCriticalSection] ∧
        s'.owner = .me 1 ∧ s'.held = true) ∧
    (∃ s', condvarWaitTimeout .Legacy .timedOut 100
        { owner := .me 1, held := true, shared := 0, waiters := 0 } =
        .ok false s'
          [.releaseMutexCall, .waitForSingleObject .event (.finite (dur2timeout 100)),
            .waitForSingleObject .legacyMutex .infinite] ∧
        s'.owner = .me 1 ∧ s'.held = true) := by
  have h := condvar_wait_timeout_degraded_reacquires
    { owner := .me 1, held := true, shared := 0, waiters := 0 } 100 rfl rfl
  exact ⟨h.1, h.2.2.2.1⟩

end WinSync
